import Mathlib

/-!
Verification development for the Bunny-Hop 3D platformer
(`source/game.ts`, first class variant, lines 66-1509).

The per-frame physics and session logic is shallowly embedded here:

* the collision resolver (`resolveCollision`, `resolveHorizontalCollision`,
  `updatePlayerBox`) works on plain rational arithmetic and is embedded
  over `ℚ`, fully computable;
* the per-frame fall trigger guard and the high-score persistence are
  likewise embedded over `ℚ`/`ℕ`;
* the procedural path generator and the fall/respawn session flow use
  `Math.sin`/`Math.cos`/`Math.atan2`/`Math.sqrt`, so they are embedded
  over `ℝ` with Mathlib's transcendental functions (necessarily
  noncomputable definitions).

JavaScript `number` values are modelled as exact rationals/reals;
floating-point rounding is outside the scope of this embedding.
-/

namespace BunnyHop

/-! ## Spatial primitive and collision resolver (over `ℚ`)

`THREE.Box3` is a min/max axis-aligned box.  The player box always has
half-extent `0.5` on every axis and is recomputed from the player position
by `updatePlayerBox` before each resolution step, so we derive it on
demand from the player position. -/

structure Box3 where
  minX : ℚ
  minY : ℚ
  minZ : ℚ
  maxX : ℚ
  maxY : ℚ
  maxZ : ℚ
  deriving DecidableEq, Repr

/-- The three coordinate axes; used to name the axis a collision
resolution acted on. -/
inductive Axis where
  | x
  | y
  | z
  deriving DecidableEq, Repr

/-- Player state mutated by `resolveCollision`: position, velocity and the
`isGrounded` / `isJumping` flags. -/
structure PlayerState where
  px : ℚ
  py : ℚ
  pz : ℚ
  vx : ℚ
  vy : ℚ
  vz : ℚ
  isGrounded : Bool
  isJumping : Bool
  deriving DecidableEq, Repr

/-- `updatePlayerBox` (game.ts:1011): the player's AABB with half-extent
`0.5` on each axis around the player position. -/
def updatePlayerBox (s : PlayerState) : Box3 :=
  { minX := s.px - 1/2
    minY := s.py - 1/2
    minZ := s.pz - 1/2
    maxX := s.px + 1/2
    maxY := s.py + 1/2
    maxZ := s.pz + 1/2 }

/-- `THREE.Box3.intersectsBox`: all three axis intervals overlap. -/
def intersectsBox (a b : Box3) : Bool :=
  a.minX ≤ b.maxX && b.minX ≤ a.maxX &&
  a.minY ≤ b.maxY && b.minY ≤ a.maxY &&
  a.minZ ≤ b.maxZ && b.minZ ≤ a.maxZ

/-- Per-axis penetration depth as computed at the top of `resolveCollision`
(game.ts:1027-1038): `min(a.max - b.min, b.max - a.min)` on the axis. -/
def overlapOnAxis (a b : Box3) : Axis → ℚ
  | .x => min (a.maxX - b.minX) (b.maxX - a.minX)
  | .y => min (a.maxY - b.minY) (b.maxY - a.minY)
  | .z => min (a.maxZ - b.minZ) (b.maxZ - a.minZ)

/-- `resolveHorizontalCollision` (game.ts:1090-1118): push the player out
on the X axis when `overlapX <= overlapZ`, else on the Z axis, to whichever
side of the platform centre the player currently occupies, zeroing the
corresponding velocity component.  The `Axis` component records which
branch ran (the source communicates this only through its side effects). -/
def resolveHorizontalCollision (s : PlayerState) (platformBox : Box3)
    (overlapX overlapZ : ℚ) : PlayerState × Axis :=
  if overlapX ≤ overlapZ then
    if platformBox.minX + (platformBox.maxX - platformBox.minX) / 2 < s.px then
      ({ s with px := platformBox.maxX + 1/2, vx := 0 }, .x)
    else
      ({ s with px := platformBox.minX - 1/2, vx := 0 }, .x)
  else
    if platformBox.minZ + (platformBox.maxZ - platformBox.minZ) / 2 < s.pz then
      ({ s with pz := platformBox.maxZ + 1/2, vz := 0 }, .z)
    else
      ({ s with pz := platformBox.minZ - 1/2, vz := 0 }, .z)

/-- `resolveCollision` (game.ts:1025-1088).  The player box is the one
derived from the current player position (the source keeps `this.playerBox`
in sync via `updatePlayerBox` before the collision loop and at the end of
every resolution).  The optional `Axis` component records which axis, if
any, the call resolved on (the source communicates this only through its
side effects); `none` means the call changed nothing (falling branch with
zero vertical velocity). -/
def resolveCollision (s : PlayerState) (platformBox : Box3) :
    PlayerState × Option Axis :=
  let playerBox := updatePlayerBox s
  let overlapX := overlapOnAxis playerBox platformBox .x
  let overlapY := overlapOnAxis playerBox platformBox .y
  let overlapZ := overlapOnAxis playerBox platformBox .z
  let playerCenterY := s.py
  let platformTopY := platformBox.maxY
  if overlapY ≤ overlapX ∧ overlapY ≤ overlapZ then
    -- vertical collision
    if s.vy < 0 then
      if platformTopY ≤ playerCenterY then
        ({ s with py := platformBox.maxY + 1/2, vy := 0,
                  isGrounded := true, isJumping := false }, some .y)
      else
        -- hit from the side while falling: resolve horizontally
        let r := resolveHorizontalCollision s platformBox overlapX overlapZ
        (r.1, some r.2)
    else if 0 < s.vy then
      -- hitting the underside
      ({ s with py := platformBox.minY - 1/2, vy := 0 }, some .y)
    else
      (s, none)
  else if overlapX ≤ overlapZ then
    if platformBox.minX + (platformBox.maxX - platformBox.minX) / 2 < s.px then
      ({ s with px := platformBox.maxX + 1/2, vx := 0 }, some .x)
    else
      ({ s with px := platformBox.minX - 1/2, vx := 0 }, some .x)
  else
    if platformBox.minZ + (platformBox.maxZ - platformBox.minZ) / 2 < s.pz then
      ({ s with pz := platformBox.maxZ + 1/2, vz := 0 }, some .z)
    else
      ({ s with pz := platformBox.minZ - 1/2, vz := 0 }, some .z)

/-- C1: in the smallest-or-tied-Y-overlap case of `resolveCollision` on an
intersecting platform box: a falling player whose centre is at or above the
platform top is snapped to `platformTop + 0.5` with vertical velocity
zeroed, `isGrounded` set and `isJumping` cleared; a falling player whose
centre is below the platform top is pushed out horizontally on the axis
(X or Z) with the smaller overlap; a rising player is snapped to
`platformBottom - 0.5` with vertical velocity zeroed and `isGrounded` left
untouched. -/
theorem resolveCollision_vertical_cases (s : PlayerState) (b : Box3)
    (_hI : intersectsBox (updatePlayerBox s) b = true)
    (hYX : overlapOnAxis (updatePlayerBox s) b .y ≤ overlapOnAxis (updatePlayerBox s) b .x)
    (hYZ : overlapOnAxis (updatePlayerBox s) b .y ≤ overlapOnAxis (updatePlayerBox s) b .z) :
    (s.vy < 0 → b.maxY ≤ s.py →
      resolveCollision s b =
        ({ s with py := b.maxY + 1/2, vy := 0,
                  isGrounded := true, isJumping := false }, some .y)) ∧
    (s.vy < 0 → s.py < b.maxY →
      resolveCollision s b =
        ((resolveHorizontalCollision s b (overlapOnAxis (updatePlayerBox s) b .x)
            (overlapOnAxis (updatePlayerBox s) b .z)).1,
         some (resolveHorizontalCollision s b (overlapOnAxis (updatePlayerBox s) b .x)
            (overlapOnAxis (updatePlayerBox s) b .z)).2) ∧
      (resolveHorizontalCollision s b (overlapOnAxis (updatePlayerBox s) b .x)
          (overlapOnAxis (updatePlayerBox s) b .z)).2 =
        (if overlapOnAxis (updatePlayerBox s) b .x ≤ overlapOnAxis (updatePlayerBox s) b .z
          then Axis.x else Axis.z)) ∧
    (0 < s.vy →
      resolveCollision s b = ({ s with py := b.minY - 1/2, vy := 0 }, some .y) ∧
      (resolveCollision s b).1.isGrounded = s.isGrounded) := by
  refine ⟨?_, ?_, ?_⟩
  · intro h1 h2
    simp only [resolveCollision]
    rw [if_pos ⟨hYX, hYZ⟩, if_pos h1, if_pos h2]
  · intro h1 h2
    refine ⟨?_, ?_⟩
    · simp only [resolveCollision]
      rw [if_pos ⟨hYX, hYZ⟩, if_pos h1, if_neg (not_le.mpr h2)]
    · simp only [resolveHorizontalCollision]
      split_ifs <;> rfl
  · intro h1
    have h2 : ¬ s.vy < 0 := not_lt.mpr (le_of_lt h1)
    constructor
    · simp only [resolveCollision]
      rw [if_pos ⟨hYX, hYZ⟩, if_neg h2, if_pos h1]
    · simp only [resolveCollision]
      rw [if_pos ⟨hYX, hYZ⟩, if_neg h2, if_pos h1]

/-- C1 witness: a player at the origin falling onto a platform whose top
is at the player's centre height lands and is snapped to `0.5`. -/
theorem resolveCollision_vertical_cases_witness :
    (intersectsBox (updatePlayerBox ⟨0, 0, 0, 0, -1, 0, false, false⟩)
      ⟨-2, -2, -2, 2, 0, 2⟩ = true) ∧
    (resolveCollision ⟨0, 0, 0, 0, -1, 0, false, false⟩ ⟨-2, -2, -2, 2, 0, 2⟩ =
      (⟨0, 1/2, 0, 0, 0, 0, true, false⟩, some .y)) := by
  have h := resolveCollision_vertical_cases ⟨0, 0, 0, 0, -1, 0, false, false⟩
    ⟨-2, -2, -2, 2, 0, 2⟩
    (by norm_num [intersectsBox, updatePlayerBox])
    (by norm_num [overlapOnAxis, updatePlayerBox])
    (by norm_num [overlapOnAxis, updatePlayerBox])
  refine ⟨by norm_num [intersectsBox, updatePlayerBox], ?_⟩
  have h2 := h.1 (by norm_num) (by norm_num)
  rw [h2]
  norm_num

/-- After a horizontal push the pushed axis carries no positive overlap. -/
lemma resolveHorizontal_overlap_nonpos (s : PlayerState) (b : Box3) (oX oZ : ℚ) :
    overlapOnAxis (updatePlayerBox (resolveHorizontalCollision s b oX oZ).1) b
      (resolveHorizontalCollision s b oX oZ).2 ≤ 0 := by
  unfold resolveHorizontalCollision
  split_ifs <;>
    (simp only [overlapOnAxis, updatePlayerBox]
     rw [min_le_iff]
     first
       | (left; linarith)
       | (right; linarith))

/-- In the strict-horizontal branch (`¬` Y-overlap smallest-or-tied) and in
the falling side-hit branch, `resolveCollision` agrees with
`resolveHorizontalCollision`. -/
lemma resolveCollision_eq_horizontal (s : PlayerState) (b : Box3)
    (h : (¬ (overlapOnAxis (updatePlayerBox s) b .y ≤ overlapOnAxis (updatePlayerBox s) b .x ∧
           overlapOnAxis (updatePlayerBox s) b .y ≤ overlapOnAxis (updatePlayerBox s) b .z)) ∨
         (s.vy < 0 ∧ s.py < b.maxY)) :
    resolveCollision s b =
      ((resolveHorizontalCollision s b (overlapOnAxis (updatePlayerBox s) b .x)
          (overlapOnAxis (updatePlayerBox s) b .z)).1,
       some (resolveHorizontalCollision s b (overlapOnAxis (updatePlayerBox s) b .x)
          (overlapOnAxis (updatePlayerBox s) b .z)).2) := by
  rcases h with h | ⟨h1, h2⟩
  · simp only [resolveCollision, resolveHorizontalCollision]
    rw [if_neg h]
    split_ifs <;> rfl
  · simp only [resolveCollision]
    by_cases hA : overlapOnAxis (updatePlayerBox s) b .y ≤ overlapOnAxis (updatePlayerBox s) b .x ∧
        overlapOnAxis (updatePlayerBox s) b .y ≤ overlapOnAxis (updatePlayerBox s) b .z
    · rw [if_pos hA, if_pos h1, if_neg (not_le.mpr h2)]
    · rw [if_neg hA]
      simp only [resolveHorizontalCollision]
      split_ifs <;> rfl

/-- C6: whenever `resolveCollision` resolves on some axis, the player box
recomputed from the updated player position no longer penetrates the
platform box on that axis: the interval overlap there is `≤ 0`. -/
theorem resolveCollision_removes_overlap (s : PlayerState) (b : Box3) (ax : Axis)
    (_hI : intersectsBox (updatePlayerBox s) b = true)
    (h : (resolveCollision s b).2 = some ax) :
    overlapOnAxis (updatePlayerBox (resolveCollision s b).1) b ax ≤ 0 := by
  by_cases hA : overlapOnAxis (updatePlayerBox s) b .y ≤ overlapOnAxis (updatePlayerBox s) b .x ∧
      overlapOnAxis (updatePlayerBox s) b .y ≤ overlapOnAxis (updatePlayerBox s) b .z
  · by_cases hB : s.vy < 0
    · by_cases hC : b.maxY ≤ s.py
      · have hr : resolveCollision s b =
            ({ s with py := b.maxY + 1/2, vy := 0,
                      isGrounded := true, isJumping := false }, some .y) := by
          simp only [resolveCollision]
          rw [if_pos hA, if_pos hB, if_pos hC]
        rw [hr] at h
        obtain rfl : Axis.y = ax := by simpa using h
        rw [hr]
        simp only [overlapOnAxis, updatePlayerBox]
        rw [min_le_iff]
        right
        linarith
      · have hr := resolveCollision_eq_horizontal s b (Or.inr ⟨hB, not_le.mp hC⟩)
        rw [hr] at h
        obtain rfl : (resolveHorizontalCollision s b (overlapOnAxis (updatePlayerBox s) b .x)
            (overlapOnAxis (updatePlayerBox s) b .z)).2 = ax := by simpa using h
        rw [hr]
        exact resolveHorizontal_overlap_nonpos s b _ _
    · by_cases hD : 0 < s.vy
      · have hr : resolveCollision s b =
            ({ s with py := b.minY - 1/2, vy := 0 }, some .y) := by
          simp only [resolveCollision]
          rw [if_pos hA, if_neg hB, if_pos hD]
        rw [hr] at h
        obtain rfl : Axis.y = ax := by simpa using h
        rw [hr]
        simp only [overlapOnAxis, updatePlayerBox]
        rw [min_le_iff]
        left
        linarith
      · have hr : resolveCollision s b = (s, none) := by
          simp only [resolveCollision]
          rw [if_pos hA, if_neg hB, if_neg hD]
        rw [hr] at h
        simp at h
  · have hr := resolveCollision_eq_horizontal s b (Or.inl hA)
    rw [hr] at h
    obtain rfl : (resolveHorizontalCollision s b (overlapOnAxis (updatePlayerBox s) b .x)
        (overlapOnAxis (updatePlayerBox s) b .z)).2 = ax := by simpa using h
    rw [hr]
    exact resolveHorizontal_overlap_nonpos s b _ _

/-- C6 witness: after landing on a platform top the vertical overlap is
gone. -/
theorem resolveCollision_removes_overlap_witness :
    (intersectsBox (updatePlayerBox ⟨0, 0, 3, 0, -1, 0, false, false⟩)
      ⟨-2, -2, 1, 2, 0, 5⟩ = true) ∧
    ((resolveCollision ⟨0, 0, 3, 0, -1, 0, false, false⟩ ⟨-2, -2, 1, 2, 0, 5⟩).2 = some .y) ∧
    overlapOnAxis
      (updatePlayerBox (resolveCollision ⟨0, 0, 3, 0, -1, 0, false, false⟩
        ⟨-2, -2, 1, 2, 0, 5⟩).1) ⟨-2, -2, 1, 2, 0, 5⟩ .y ≤ 0 :=
  ⟨by norm_num [intersectsBox, updatePlayerBox],
    by norm_num [resolveCollision, updatePlayerBox, overlapOnAxis, min_def],
    resolveCollision_removes_overlap ⟨0, 0, 3, 0, -1, 0, false, false⟩
      ⟨-2, -2, 1, 2, 0, 5⟩ .y (by norm_num [intersectsBox, updatePlayerBox])
      (by norm_num [resolveCollision, updatePlayerBox, overlapOnAxis, min_def])⟩

/-- C9: in the smallest-or-tied-Y-overlap case with vertical velocity
exactly `0`, `resolveCollision` changes nothing — no snap and no
horizontal push — and the player box is left still overlapping the
platform box. -/
theorem resolveCollision_zero_vertical_velocity (s : PlayerState) (b : Box3)
    (hI : intersectsBox (updatePlayerBox s) b = true)
    (hYX : overlapOnAxis (updatePlayerBox s) b .y ≤ overlapOnAxis (updatePlayerBox s) b .x)
    (hYZ : overlapOnAxis (updatePlayerBox s) b .y ≤ overlapOnAxis (updatePlayerBox s) b .z)
    (hv : s.vy = 0) :
    resolveCollision s b = (s, none) ∧
    intersectsBox (updatePlayerBox (resolveCollision s b).1) b = true := by
  have hmain : resolveCollision s b = (s, none) := by
    simp only [resolveCollision]
    rw [if_pos ⟨hYX, hYZ⟩, if_neg (by rw [hv]; exact lt_irrefl 0),
      if_neg (by rw [hv]; exact lt_irrefl 0)]
  exact ⟨hmain, by rw [hmain]; exact hI⟩

/-- C9 witness: a player resting exactly inside a platform with zero
vertical velocity is left untouched by `resolveCollision`. -/
theorem resolveCollision_zero_vertical_velocity_witness :
    resolveCollision ⟨0, 0, 0, 0, 0, 0, false, false⟩ ⟨-2, -2, -2, 2, 0, 2⟩ =
      (⟨0, 0, 0, 0, 0, 0, false, false⟩, none) ∧
    intersectsBox
      (updatePlayerBox (resolveCollision ⟨0, 0, 0, 0, 0, 0, false, false⟩
        ⟨-2, -2, -2, 2, 0, 2⟩).1) ⟨-2, -2, -2, 2, 0, 2⟩ = true :=
  resolveCollision_zero_vertical_velocity ⟨0, 0, 0, 0, 0, 0, false, false⟩
    ⟨-2, -2, -2, 2, 0, 2⟩ (by norm_num [intersectsBox, updatePlayerBox])
    (by norm_num [overlapOnAxis, updatePlayerBox])
    (by norm_num [overlapOnAxis, updatePlayerBox]) rfl

/-! ## Fall trigger guard (game.ts:872-876)

Each frame `update` runs
`if (this.player.position.y < -20 && !this.isFalling) { this.isFalling = true; this.handleFall(); }`.
The flag is set synchronously before the asynchronous `handleFall` begins,
so the guard is visible to the very next frame.  We model the fragment as
a step function on the flag together with a counter of `handleFall`
invocations; the player Y of each frame is an input. -/

structure FallGuardState where
  isFalling : Bool
  handleFallCalls : ℕ
  deriving DecidableEq, Repr

/-- One frame's fall check: at `player.position.y < -20` with the guard
clear, set `isFalling` and invoke `handleFall` (counted); otherwise do
nothing. -/
def fallCheckFrame (s : FallGuardState) (py : ℚ) : FallGuardState :=
  if py < -20 ∧ s.isFalling = false then
    { isFalling := true, handleFallCalls := s.handleFallCalls + 1 }
  else
    s

/-- A run of consecutive frames, one player-Y sample per frame. -/
def fallCheckFrames (s : FallGuardState) (pys : List ℚ) : FallGuardState :=
  pys.foldl fallCheckFrame s

/-- Once the guard is set, further frames never invoke `handleFall`. -/
lemma fallCheckFrames_of_isFalling (pys : List ℚ) (s : FallGuardState)
    (hs : s.isFalling = true) : fallCheckFrames s pys = s := by
  induction pys with
  | nil => rfl
  | cons y ys ih =>
    have hstep : fallCheckFrame s y = s := by
      unfold fallCheckFrame
      rw [if_neg]
      rintro ⟨-, h2⟩
      rw [hs] at h2
      exact absurd h2 (by simp)
    show fallCheckFrames (fallCheckFrame s y) ys = s
    rw [hstep, ih]

/-- C4: if the player's Y is below the fall threshold `-20` on two or more
consecutive frames before the fall flow resolves, `handleFall` is invoked
exactly once — the first such frame sets the `isFalling` guard
synchronously and every later frame is blocked by it. -/
theorem fall_flow_invoked_once (s : FallGuardState) (pys : List ℚ)
    (hguard : s.isFalling = false)
    (hbelow : ∀ y ∈ pys, y < -20)
    (hlen : 2 ≤ pys.length) :
    (fallCheckFrames s pys).handleFallCalls = s.handleFallCalls + 1 ∧
    (fallCheckFrames s pys).isFalling = true := by
  match pys, hlen with
  | y :: ys, _ =>
    have hy : y < -20 := hbelow y (List.mem_cons_self y ys)
    have hstep : fallCheckFrame s y =
        { isFalling := true, handleFallCalls := s.handleFallCalls + 1 } := by
      unfold fallCheckFrame
      rw [if_pos ⟨hy, hguard⟩]
    have : fallCheckFrames s (y :: ys) =
        { isFalling := true, handleFallCalls := s.handleFallCalls + 1 } := by
      show fallCheckFrames (fallCheckFrame s y) ys = _
      rw [hstep, fallCheckFrames_of_isFalling ys _ rfl]
    rw [this]
    exact ⟨rfl, rfl⟩

/-- C4 witness: a clean state with the player at `y = -25` on two
consecutive frames triggers the respawn flow exactly once. -/
theorem fall_flow_invoked_once_witness :
    (fallCheckFrames ⟨false, 0⟩ [-25, -25]).handleFallCalls = 0 + 1 ∧
    (fallCheckFrames ⟨false, 0⟩ [-25, -25]).isFalling = true :=
  fall_flow_invoked_once ⟨false, 0⟩ [-25, -25] rfl
    (by
      intro y hy
      simp only [List.mem_cons, List.not_mem_nil, or_false] at hy
      rcases hy with h | h <;> rw [h] <;> norm_num)
    (by norm_num)

/-! ## High-score persistence (game.ts:1440-1460)

`saveHighScore(score)` updates the in-memory `highScore` and best-effort
persists it: the `localStorage` write happens inside the
`if (score > this.highScore)` branch, wrapped in `try/catch`, and
`updateRecordLight()` runs in the same branch.  Storage is modelled as an
optional stored value plus an availability flag (an unavailable storage
makes the write throw, which the code swallows). -/

structure HighScoreStorage where
  stored : Option ℕ
  available : Bool
  deriving DecidableEq, Repr

/-- Result of one `saveHighScore` call: the new in-memory `highScore`, the
storage afterwards, and whether the persist-and-refresh branch ran. -/
def saveHighScore (highScore score : ℕ) (st : HighScoreStorage) :
    ℕ × HighScoreStorage × Bool :=
  if highScore < score then
    (score, (if st.available then { st with stored := some score } else st), true)
  else
    (highScore, st, false)

/-- C10: the stored high score is monotone — the in-memory value after
`saveHighScore(s)` is `max(previous, s)`; the persistent write and
record-light refresh run exactly when `s` strictly exceeds the previous
value; and a failing storage write still leaves the in-memory value
updated. -/
theorem saveHighScore_monotone (highScore score : ℕ) (st : HighScoreStorage) :
    (saveHighScore highScore score st).1 = max highScore score ∧
    ((saveHighScore highScore score st).2.2 = true ↔ highScore < score) ∧
    (¬ highScore < score → (saveHighScore highScore score st).2.1 = st) ∧
    (highScore < score → st.available = true →
      (saveHighScore highScore score st).2.1.stored = some score) ∧
    (highScore < score → st.available = false →
      (saveHighScore highScore score st).2.1 = st ∧
      (saveHighScore highScore score st).1 = score) := by
  unfold saveHighScore
  by_cases h : highScore < score
  · rw [if_pos h]
    refine ⟨by rw [max_eq_right (le_of_lt h)], by simp [h], fun hc => absurd h hc, ?_, ?_⟩
    · intro _ hav
      rw [if_pos hav]
    · intro _ hav
      rw [if_neg (by rw [hav]; exact Bool.false_ne_true)]
      exact ⟨rfl, rfl⟩
  · rw [if_neg h]
    refine ⟨by rw [max_eq_left (Nat.le_of_not_lt h)], by simp [h], fun _ => rfl,
      fun hc => absurd hc h, fun hc => absurd hc h⟩

/-- C10 witness: saving a score of 7 over a previous best of 3 with
unavailable storage still raises the in-memory best to 7 and skips the
write. -/
theorem saveHighScore_monotone_witness :
    (saveHighScore 3 7 ⟨some 3, false⟩).1 = max 3 7 ∧
    ((saveHighScore 3 7 ⟨some 3, false⟩).2.2 = true ↔ 3 < 7) ∧
    (¬ 3 < 7 → (saveHighScore 3 7 ⟨some 3, false⟩).2.1 = ⟨some 3, false⟩) ∧
    (3 < 7 → (⟨some 3, false⟩ : HighScoreStorage).available = true →
      (saveHighScore 3 7 ⟨some 3, false⟩).2.1.stored = some 7) ∧
    (3 < 7 → (⟨some 3, false⟩ : HighScoreStorage).available = false →
      (saveHighScore 3 7 ⟨some 3, false⟩).2.1 = ⟨some 3, false⟩ ∧
      (saveHighScore 3 7 ⟨some 3, false⟩).1 = 7) :=
  saveHighScore_monotone 3 7 ⟨some 3, false⟩

/-! ## Procedural path generator (game.ts:323-505)

The generator uses `Math.sin` / `Math.cos` / `Math.atan2` / `Math.sqrt`,
so this part of the embedding lives over `ℝ` (necessarily noncomputable).
Each `Math.random()` draw of one `generateNextPlatform` call is an
explicit oracle field, constrained to `[0, 1)` by `ValidRand`.  Platform
boxes are derived on demand from position and mesh dimensions (the source
recomputes the cached `box` from the mesh at the defined points, so the
cache always agrees with this derived value). -/

inductive PlatformType where
  | normal
  | moving
  | fading
  deriving DecidableEq, Repr

/-- One platform entity of the registry: mesh position, mesh dimensions,
kind, generation index, the moving-platform and fading-platform extras and
the lifecycle flags.  `baseX`/`movePhase` are `none` for non-moving
platforms and `fadeTimer` is `none` for the start platform (the source
leaves these fields `undefined`). -/
structure Platform where
  x : ℝ
  y : ℝ
  z : ℝ
  width : ℝ
  height : ℝ
  depth : ℝ
  ptype : PlatformType
  index : ℕ
  baseX : Option ℝ
  movePhase : Option ℝ
  touched : Bool
  fadeTimer : Option ℝ
  opacity : ℝ
  visible : Bool
  dead : Bool

/-- Generator cursor state plus the platform registry it feeds. -/
structure World where
  platforms : List Platform
  generatedCount : ℕ
  lastGenX : ℝ
  lastGenY : ℝ
  lastGenZ : ℝ
  pathAngle : ℝ
  turnRate : ℝ
  turnChangeTimer : ℤ

/-- The `Math.random()` draws consumed by one `generateNextPlatform`
call. -/
structure GenRand where
  gapR : ℝ
  turnR : ℝ
  timerR : ℝ
  heightPR : ℝ
  heightR : ℝ
  sizeR : ℝ
  typeR : ℝ
  phaseR : ℝ

/-- Every `Math.random()` result lies in `[0, 1)`. -/
def ValidRand (r : GenRand) : Prop :=
  (0 ≤ r.gapR ∧ r.gapR < 1) ∧ (0 ≤ r.turnR ∧ r.turnR < 1) ∧
  (0 ≤ r.timerR ∧ r.timerR < 1) ∧ (0 ≤ r.heightPR ∧ r.heightPR < 1) ∧
  (0 ≤ r.heightR ∧ r.heightR < 1) ∧ (0 ≤ r.sizeR ∧ r.sizeR < 1) ∧
  (0 ≤ r.typeR ∧ r.typeR < 1) ∧ (0 ≤ r.phaseR ∧ r.phaseR < 1)

/-- JavaScript `Math.atan2(y, x)` (signed zeros aside). -/
noncomputable def atan2 (y x : ℝ) : ℝ :=
  if 0 < x then Real.arctan (y / x)
  else if x < 0 then
    (if 0 ≤ y then Real.arctan (y / x) + Real.pi else Real.arctan (y / x) - Real.pi)
  else if 0 < y then Real.pi / 2
  else if y < 0 then -(Real.pi / 2)
  else 0

/-- `updatePathDirection` (game.ts:420-436): decrement the turn-change
countdown, re-roll the turn rate when it hits zero, accumulate the rate
into `pathAngle` and clamp the angle to `±π/3`. -/
noncomputable def updatePathDirection (w : World) (r : GenRand) : World :=
  let t := w.turnChangeTimer - 1
  let rate := if t ≤ 0 then (r.turnR - 0.5) * 0.3 else w.turnRate
  let timer := if t ≤ 0 then 5 + ⌊r.timerR * 10⌋ else t
  let a := w.pathAngle + rate
  let maxAngle := Real.pi / 3
  { w with turnRate := rate, turnChangeTimer := timer,
           pathAngle := max (-maxAngle) (min maxAngle a) }

/-- One iteration of the `avoidSelfIntersection` scan (game.ts:443-461):
if the running candidate `(x, z)` is closer than `minDistance` to platform
`p`, push it away along `atan2(dx, -dz)` and steer `pathAngle` to half the
push angle. -/
noncomputable def avoidStep (minDistance : ℝ) (acc : ℝ × ℝ × ℝ) (p : Platform) :
    ℝ × ℝ × ℝ :=
  let x := acc.1
  let z := acc.2.1
  let dx := x - p.x
  let dz := z - p.z
  let dist := Real.sqrt (dx * dx + dz * dz)
  if dist < minDistance then
    let pushAngle := atan2 dx (-dz)
    let pushStrength := (minDistance - dist) * 1.5
    (x + Real.sin pushAngle * pushStrength,
     z - Real.cos pushAngle * pushStrength,
     pushAngle * 0.5)
  else acc

/-- `avoidSelfIntersection` (game.ts:438-464): one pass over the most
recent (up to) 30 platforms — the source iterates the registry array from
its last element backwards, which is the reversed list truncated to the
check count.  Returns the adjusted `(x, z, pathAngle)`. -/
noncomputable def avoidSelfIntersection (w : World) (x z gap : ℝ) : ℝ × ℝ × ℝ :=
  let minDistance := gap * 1.5
  let checkCount := min 30 w.platforms.length
  (w.platforms.reverse.take checkCount).foldl (avoidStep minDistance) (x, z, w.pathAngle)

/-- `getPlatformType` (game.ts:491-505): index below 40 is always normal;
below 80 a 20% moving chance; from 80 on 15% moving / 15% fading on one
roll. -/
noncomputable def getPlatformType (n : ℕ) (roll : ℝ) : PlatformType :=
  if n < 40 then .normal
  else if n < 80 then (if roll < 0.2 then .moving else .normal)
  else if roll < 0.15 then .moving
  else if roll < 0.3 then .fading
  else .normal

/-- `generateNextPlatform` (game.ts:341-418).  The gem emission (every 5th
platform) is cosmetic and not modelled.  `addPlatformWithType`
(game.ts:507-544) is inlined as the appended `Platform` record; a moving
platform draws its initial `movePhase` from `Math.random() * 2π`. -/
noncomputable def generateNextPlatform (w : World) (r : GenRand) : World :=
  let n := w.generatedCount + 1
  let difficulty : ℝ := min ((n : ℝ) / 200) 1
  let isTutorial := n ≤ 5
  let gap : ℝ := if isTutorial then 4 else 3.5 + difficulty * 1 + r.gapR * 2.5
  let w1 := if isTutorial then w else updatePathDirection w r
  let nextX := w1.lastGenX + Real.sin w1.pathAngle * gap
  let nextZ := w1.lastGenZ - Real.cos w1.pathAngle * gap
  let adj := if isTutorial then (nextX, nextZ, w1.pathAngle)
             else avoidSelfIntersection w1 nextX nextZ gap
  let y1 := if ¬ isTutorial ∧ 0.3 < r.heightPR then
              w1.lastGenY + 0.2 + r.heightR * 0.3 + difficulty * 0.2
            else w1.lastGenY
  let y2 := max 0 y1
  let size : ℝ := if isTutorial then 3.5 else 3.2 - difficulty * 1.0 + r.sizeR * 0.5
  let ptype := getPlatformType n r.typeR
  let plat : Platform :=
    { x := adj.1, y := y2, z := adj.2.1,
      width := size, height := 0.5, depth := size,
      ptype := ptype, index := n,
      baseX := if ptype = .moving then some adj.1 else none,
      movePhase := if ptype = .moving then some (r.phaseR * (2 * Real.pi)) else none,
      touched := false, fadeTimer := some 1.5, opacity := 1,
      visible := true, dead := false }
  { w1 with generatedCount := n,
            lastGenX := adj.1, lastGenY := y2, lastGenZ := adj.2.1,
            pathAngle := adj.2.2,
            platforms := w1.platforms ++ [plat] }

/-- The start platform (game.ts:578-632): a `6 × 1 × 10` box centred at
`(0, 0, -depth/2) = (0, 0, -5)` (config `platforms.start`). -/
def startPlatform : Platform :=
  { x := 0, y := 0, z := -5, width := 6, height := 1, depth := 10,
    ptype := .normal, index := 0, baseX := none, movePhase := none,
    touched := false, fadeTimer := none, opacity := 1,
    visible := true, dead := false }

/-- Generator state before `createStartPlatform` runs (all class-field
initialisers, game.ts:149-157). -/
def initialWorld : World :=
  { platforms := [], generatedCount := 0, lastGenX := 0, lastGenY := 0,
    lastGenZ := 0, pathAngle := 0, turnRate := 0, turnChangeTimer := 0 }

/-- `createStartPlatform` (game.ts:323-332): push the start platform and
place the generator cursor at the start platform's far edge
(`lastGenZ = -start.depth = -10`). -/
def createStartPlatform (w : World) : World :=
  { w with platforms := w.platforms ++ [startPlatform],
           lastGenX := 0, lastGenY := 0, lastGenZ := -10 }

/-- `generateInitialPlatforms` (game.ts:334-339): `PLATFORMS_AHEAD = 25`
generation calls. -/
noncomputable def generateInitialPlatforms (w : World) (rs : ℕ → GenRand) : World :=
  (List.range 25).foldl (fun acc i => generateNextPlatform acc (rs i)) w

/-- Worlds reachable from the freshly constructed world by any sequence of
`generateNextPlatform` calls with genuine `Math.random()` draws. -/
inductive ReachableWorld : World → Prop where
  | init : ReachableWorld (createStartPlatform initialWorld)
  | step (w : World) (r : GenRand) : ReachableWorld w → ValidRand r →
      ReachableWorld (generateNextPlatform w r)

/-- When its second argument is positive, `atan2` is in the arctan branch
and hence strictly inside `(-π/2, π/2)`. -/
lemma abs_atan2_lt_pi_div_two (y x : ℝ) (hx : 0 < x) :
    |atan2 y x| < Real.pi / 2 := by
  unfold atan2
  rw [if_pos hx, abs_lt]
  exact ⟨Real.neg_pi_div_two_lt_arctan _, Real.arctan_lt_pi_div_two _⟩

/-- The `±π/3` clamp really bounds the clamped value. -/
lemma abs_clamp_le (a : ℝ) :
    |max (-(Real.pi / 3)) (min (Real.pi / 3) a)| ≤ Real.pi / 3 := by
  have hpi := Real.pi_pos
  rw [abs_le]
  constructor
  · exact le_max_left _ _
  · exact max_le (by linarith) (min_le_left _ _)

/-- `updatePathDirection` always leaves `|pathAngle| ≤ π/3`. -/
lemma updatePathDirection_pathAngle_bound (w : World) (r : GenRand) :
    |(updatePathDirection w r).pathAngle| ≤ Real.pi / 3 :=
  abs_clamp_le _

lemma updatePathDirection_lastGenZ (w : World) (r : GenRand) :
    (updatePathDirection w r).lastGenZ = w.lastGenZ := rfl

lemma updatePathDirection_platforms (w : World) (r : GenRand) :
    (updatePathDirection w r).platforms = w.platforms := rfl

/-- The avoidance scan only moves the candidate further forward (its `z`
never grows) and every `pathAngle` it writes is `atan2(dx, -dz) / 2` with
`-dz > 0`, hence within `±π/4 ⊆ ±π/3` — provided the candidate starts
strictly ahead (in `-z` direction) of every scanned platform. -/
lemma avoid_foldl_spec (m : ℝ) (L : List Platform) :
    ∀ x z a : ℝ, (∀ p ∈ L, z < p.z) → |a| ≤ Real.pi / 3 →
      (L.foldl (avoidStep m) (x, z, a)).2.1 ≤ z ∧
      |(L.foldl (avoidStep m) (x, z, a)).2.2| ≤ Real.pi / 3 := by
  have hpi := Real.pi_pos
  induction L with
  | nil => exact fun x z a _ ha => ⟨le_refl z, ha⟩
  | cons p L ih =>
    intro x z a hz ha
    have hzp : z < p.z := hz p (List.mem_cons_self p L)
    have hz' : ∀ q ∈ L, z < q.z := fun q hq => hz q (List.mem_cons_of_mem p hq)
    rw [List.foldl_cons]
    by_cases hd :
        Real.sqrt ((x - p.x) * (x - p.x) + (z - p.z) * (z - p.z)) < m
    · have hstep : avoidStep m (x, z, a) p =
          (x + Real.sin (atan2 (x - p.x) (-(z - p.z))) * ((m - Real.sqrt ((x - p.x) * (x - p.x) + (z - p.z) * (z - p.z))) * 1.5),
           z - Real.cos (atan2 (x - p.x) (-(z - p.z))) * ((m - Real.sqrt ((x - p.x) * (x - p.x) + (z - p.z) * (z - p.z))) * 1.5),
           atan2 (x - p.x) (-(z - p.z)) * 0.5) := by
        unfold avoidStep
        rw [if_pos hd]
      have hpos : 0 < -(z - p.z) := by linarith
      have hang : |atan2 (x - p.x) (-(z - p.z))| < Real.pi / 2 :=
        abs_atan2_lt_pi_div_two _ _ hpos
      have hcos : 0 < Real.cos (atan2 (x - p.x) (-(z - p.z))) := by
        rcases abs_lt.mp hang with ⟨h1, h2⟩
        exact Real.cos_pos_of_mem_Ioo ⟨h1, h2⟩
      have hstr : 0 < (m - Real.sqrt ((x - p.x) * (x - p.x) + (z - p.z) * (z - p.z))) * 1.5 := by
        have : (0:ℝ) < 1.5 := by norm_num
        exact mul_pos (by linarith) this
      have hzlt :
          z - Real.cos (atan2 (x - p.x) (-(z - p.z))) * ((m - Real.sqrt ((x - p.x) * (x - p.x) + (z - p.z) * (z - p.z))) * 1.5) < z := by
        have := mul_pos hcos hstr
        linarith
      have hhalf : |atan2 (x - p.x) (-(z - p.z)) * 0.5| ≤ Real.pi / 3 := by
        rw [abs_mul]
        have h05 : |(0.5 : ℝ)| = 0.5 := by norm_num
        rw [h05]
        nlinarith [abs_nonneg (atan2 (x - p.x) (-(z - p.z)))]
      rw [hstep]
      have hrec := ih
        (x + Real.sin (atan2 (x - p.x) (-(z - p.z))) * ((m - Real.sqrt ((x - p.x) * (x - p.x) + (z - p.z) * (z - p.z))) * 1.5))
        (z - Real.cos (atan2 (x - p.x) (-(z - p.z))) * ((m - Real.sqrt ((x - p.x) * (x - p.x) + (z - p.z) * (z - p.z))) * 1.5))
        (atan2 (x - p.x) (-(z - p.z)) * 0.5)
        (fun q hq => lt_trans hzlt (hz' q hq)) hhalf
      exact ⟨le_trans hrec.1 (le_of_lt hzlt), hrec.2⟩
    · have hstep : avoidStep m (x, z, a) p = (x, z, a) := by
        unfold avoidStep
        rw [if_neg hd]
      rw [hstep]
      exact ih x z a hz' ha

/-- `avoidSelfIntersection` in context: the adjusted `z` never exceeds the
candidate's and the resulting `pathAngle` stays within `±π/3`. -/
lemma avoidSelfIntersection_spec (w : World) (x z gap : ℝ)
    (hz : ∀ p ∈ w.platforms, z < p.z) (ha : |w.pathAngle| ≤ Real.pi / 3) :
    (avoidSelfIntersection w x z gap).2.1 ≤ z ∧
    |(avoidSelfIntersection w x z gap).2.2| ≤ Real.pi / 3 := by
  unfold avoidSelfIntersection
  apply avoid_foldl_spec
  · intro p hp
    exact hz p (List.mem_reverse.mp (List.mem_of_mem_take hp))
  · exact ha

/-- The generator invariant: the heading is clamped and the cursor sits at
or ahead of (in `-z` direction) every registered platform. -/
def GenInv (w : World) : Prop :=
  |w.pathAngle| ≤ Real.pi / 3 ∧ ∀ p ∈ w.platforms, w.lastGenZ ≤ p.z

lemma genInv_init : GenInv (createStartPlatform initialWorld) := by
  constructor
  · have hpi := Real.pi_pos
    show |(0:ℝ)| ≤ Real.pi / 3
    rw [abs_zero]
    linarith
  · intro p hp
    simp only [createStartPlatform, initialWorld, List.nil_append,
      List.mem_singleton] at hp
    rw [hp]
    show (-10 : ℝ) ≤ (-5 : ℝ)
    norm_num

/-- One `generateNextPlatform` call preserves the generator invariant. -/
lemma genInv_step (w : World) (r : GenRand) (hr : 0 ≤ r.gapR)
    (hw : GenInv w) : GenInv (generateNextPlatform w r) := by
  obtain ⟨ha, hz⟩ := hw
  have hpi := Real.pi_pos
  have hcosw : ∀ b : ℝ, |b| ≤ Real.pi / 3 → 0 < Real.cos b := by
    intro b hb
    rcases abs_le.mp hb with ⟨h1, h2⟩
    exact Real.cos_pos_of_mem_Ioo ⟨by linarith, by linarith⟩
  by_cases hT : w.generatedCount + 1 ≤ 5
  · -- tutorial step: straight ahead with gap 4
    have hcos : 0 < Real.cos w.pathAngle := hcosw _ ha
    have hdz : w.lastGenZ - Real.cos w.pathAngle * 4 < w.lastGenZ := by
      nlinarith
    simp only [generateNextPlatform, if_pos hT]
    refine ⟨ha, ?_⟩
    intro p hp
    rcases List.mem_append.mp hp with hp | hp
    · exact le_trans (le_of_lt hdz) (hz p hp)
    · rw [List.mem_singleton.mp hp]
  · -- post-tutorial step
    have hd0 : (0:ℝ) ≤ min (((w.generatedCount + 1 : ℕ) : ℝ) / 200) 1 :=
      le_min (by positivity) (by norm_num)
    have hgap : (0:ℝ) < 3.5 + min (((w.generatedCount + 1 : ℕ) : ℝ) / 200) 1 * 1 + r.gapR * 2.5 := by
      nlinarith
    have ha1 : |(updatePathDirection w r).pathAngle| ≤ Real.pi / 3 :=
      updatePathDirection_pathAngle_bound w r
    have hcos : 0 < Real.cos (updatePathDirection w r).pathAngle := hcosw _ ha1
    have hdz : (updatePathDirection w r).lastGenZ -
        Real.cos (updatePathDirection w r).pathAngle *
          (3.5 + min (((w.generatedCount + 1 : ℕ) : ℝ) / 200) 1 * 1 + r.gapR * 2.5) <
        w.lastGenZ := by
      rw [updatePathDirection_lastGenZ]
      nlinarith
    have hzcand : ∀ p ∈ (updatePathDirection w r).platforms,
        (updatePathDirection w r).lastGenZ -
          Real.cos (updatePathDirection w r).pathAngle *
            (3.5 + min (((w.generatedCount + 1 : ℕ) : ℝ) / 200) 1 * 1 + r.gapR * 2.5) < p.z := by
      intro p hp
      rw [updatePathDirection_platforms] at hp
      exact lt_of_lt_of_le hdz (hz p hp)
    have havoid := avoidSelfIntersection_spec (updatePathDirection w r)
      ((updatePathDirection w r).lastGenX +
        Real.sin (updatePathDirection w r).pathAngle *
          (3.5 + min (((w.generatedCount + 1 : ℕ) : ℝ) / 200) 1 * 1 + r.gapR * 2.5))
      ((updatePathDirection w r).lastGenZ -
        Real.cos (updatePathDirection w r).pathAngle *
          (3.5 + min (((w.generatedCount + 1 : ℕ) : ℝ) / 200) 1 * 1 + r.gapR * 2.5))
      (3.5 + min (((w.generatedCount + 1 : ℕ) : ℝ) / 200) 1 * 1 + r.gapR * 2.5)
      hzcand ha1
    simp only [generateNextPlatform, if_neg hT]
    refine ⟨havoid.2, ?_⟩
    intro p hp
    rcases List.mem_append.mp hp with hp | hp
    · rw [updatePathDirection_platforms] at hp
      exact le_trans havoid.1 (le_trans (le_of_lt hdz) (hz p hp))
    · rw [List.mem_singleton.mp hp]

/-- Every reachable generator state satisfies the invariant. -/
lemma reachable_genInv (w : World) (hw : ReachableWorld w) : GenInv w := by
  induction hw with
  | init => exact genInv_init
  | step w r _ hr ih => exact genInv_step w r hr.1.1 ih

/-- C2: along every sequence of `generateNextPlatform` calls the heading
satisfies `|pathAngle| ≤ 60° = π/3` — in particular after the tutorial and
immediately after the self-intersection avoidance pass has overwritten
`pathAngle` (the avoidance output is exactly the `pathAngle` the call
leaves behind, and the proof bounds it by `π/4 < π/3` whenever a push
fired). -/
theorem pathAngle_bounded (w : World) (hw : ReachableWorld w) :
    |w.pathAngle| ≤ Real.pi / 3 :=
  (reachable_genInv w hw).1

/-- C2 witness: the freshly constructed world is reachable and satisfies
the angle bound. -/
theorem pathAngle_bounded_witness :
    ReachableWorld (createStartPlatform initialWorld) ∧
    |(createStartPlatform initialWorld).pathAngle| ≤ Real.pi / 3 :=
  ⟨ReachableWorld.init, pathAngle_bounded _ ReachableWorld.init⟩

/-- C8: a tutorial-phase `generateNextPlatform` call (`generatedCount`
becoming `1..5`, with the cursor still flat and straight as it is after a
reset) emits a normal platform of size `3.5 × 0.5 × 3.5` at height `0`,
keeps `pathAngle` at `0`, skips turn update and avoidance, and places the
platform exactly `4` units from the previous cursor position. -/
theorem tutorial_step_fixed (w : World) (r : GenRand)
    (hT : w.generatedCount + 1 ≤ 5)
    (ha : w.pathAngle = 0) (hy : w.lastGenY = 0) :
    generateNextPlatform w r =
      { w with generatedCount := w.generatedCount + 1,
               lastGenX := w.lastGenX, lastGenY := 0,
               lastGenZ := w.lastGenZ - 4, pathAngle := 0,
               platforms := w.platforms ++
                 [{ x := w.lastGenX, y := 0, z := w.lastGenZ - 4,
                    width := 3.5, height := 0.5, depth := 3.5,
                    ptype := .normal, index := w.generatedCount + 1,
                    baseX := none, movePhase := none, touched := false,
                    fadeTimer := some 1.5, opacity := 1,
                    visible := true, dead := false }] } ∧
    Real.sqrt (((generateNextPlatform w r).lastGenX - w.lastGenX) ^ 2 +
      ((generateNextPlatform w r).lastGenZ - w.lastGenZ) ^ 2) = 4 := by
  have h40 : w.generatedCount + 1 < 40 := by omega
  have hty : getPlatformType (w.generatedCount + 1) r.typeR = .normal := by
    unfold getPlatformType
    rw [if_pos h40]
  have hyc : ¬ (¬ (w.generatedCount + 1 ≤ 5) ∧ 0.3 < r.heightPR) :=
    fun hc => hc.1 hT
  have hpm : ¬ (PlatformType.normal = PlatformType.moving) := by
    intro hc
    exact PlatformType.noConfusion hc
  have hmain : generateNextPlatform w r =
      { w with generatedCount := w.generatedCount + 1,
               lastGenX := w.lastGenX, lastGenY := 0,
               lastGenZ := w.lastGenZ - 4, pathAngle := 0,
               platforms := w.platforms ++
                 [{ x := w.lastGenX, y := 0, z := w.lastGenZ - 4,
                    width := 3.5, height := 0.5, depth := 3.5,
                    ptype := .normal, index := w.generatedCount + 1,
                    baseX := none, movePhase := none, touched := false,
                    fadeTimer := some 1.5, opacity := 1,
                    visible := true, dead := false }] } := by
    simp only [generateNextPlatform, if_pos hT, if_neg hyc, hty, if_neg hpm, ha, hy,
      Real.sin_zero, Real.cos_zero, zero_mul, one_mul, add_zero, max_self]
  refine ⟨hmain, ?_⟩
  rw [hmain]
  have hsq : (w.lastGenX - w.lastGenX) ^ 2 + (w.lastGenZ - 4 - w.lastGenZ) ^ 2 = (16:ℝ) := by
    ring
  show Real.sqrt ((w.lastGenX - w.lastGenX) ^ 2 + (w.lastGenZ - 4 - w.lastGenZ) ^ 2) = 4
  rw [hsq, show (16:ℝ) = 4 ^ 2 by norm_num, Real.sqrt_sq (by norm_num : (0:ℝ) ≤ 4)]

/-- C8 witness: the very first generation call after construction emits
the fixed tutorial platform 4 units ahead. -/
theorem tutorial_step_fixed_witness :
    ((createStartPlatform initialWorld).generatedCount + 1 ≤ 5) ∧
    ((createStartPlatform initialWorld).pathAngle = 0) ∧
    ((createStartPlatform initialWorld).lastGenY = 0) ∧
    Real.sqrt
      (((generateNextPlatform (createStartPlatform initialWorld) ⟨0, 0, 0, 0, 0, 0, 0, 0⟩).lastGenX -
          (createStartPlatform initialWorld).lastGenX) ^ 2 +
        ((generateNextPlatform (createStartPlatform initialWorld) ⟨0, 0, 0, 0, 0, 0, 0, 0⟩).lastGenZ -
          (createStartPlatform initialWorld).lastGenZ) ^ 2) = 4 :=
  ⟨by norm_num [createStartPlatform, initialWorld], rfl, rfl,
    (tutorial_step_fixed (createStartPlatform initialWorld) ⟨0, 0, 0, 0, 0, 0, 0, 0⟩
      (by norm_num [createStartPlatform, initialWorld]) rfl rfl).2⟩

/-! ## Per-frame platform dynamics and lifecycle (game.ts:838-857, 950-1009) -/

/-- `updateDynamicPlatforms` body for one platform (game.ts:950-976):
moving platforms advance their sine phase and recompute `x`; fading
platforms that have been touched and are not yet dead tick `fadeTimer`
down by the frame delta (`?? 1.5` models the source's fallback for an
undefined timer), set opacity to `max(0, fadeTimer / 1.5)` and die once
the timer reaches zero.  The cached box is derived from position here, so
its recompute is implicit. -/
noncomputable def updateDynamicPlatform (delta : ℝ) (p : Platform) : Platform :=
  let p1 :=
    if p.ptype = .moving then
      match p.baseX, p.movePhase with
      | some bx, some mp =>
        let phase := mp + delta * 2
        { p with movePhase := some phase, x := bx + Real.sin phase * 3 }
      | _, _ => p
    else p
  if p1.ptype = .fading ∧ p1.touched = true ∧ p1.dead = false then
    let ft := p1.fadeTimer.getD 1.5 - delta
    let p2 := { p1 with fadeTimer := some ft, opacity := max 0 (ft / 1.5) }
    if ft ≤ 0 then { p2 with dead := true, visible := false } else p2
  else p1

/-- `updateDynamicPlatforms` (game.ts:950-976) maps the per-platform
update over the registry; it never adds or removes entries. -/
noncomputable def updateDynamicPlatforms (delta : ℝ) (ps : List Platform) :
    List Platform :=
  ps.map (updateDynamicPlatform delta)

/-- The platforms the collision loop actually tests (game.ts:838-842): the
loop `continue`s past every platform with `dead = true`. -/
def collidablePlatforms (ps : List Platform) : List Platform :=
  ps.filter (fun p => !p.dead)

/-- `cleanupOldPlatforms` (game.ts:978-997): remove platforms more than
`PLATFORMS_BEHIND * 6 = 60` units behind the player, always keeping the
start platform at index 0. -/
noncomputable def cleanupOldPlatforms (playerZ : ℝ) (ps : List Platform) :
    List Platform :=
  match ps with
  | [] => []
  | p0 :: rest => p0 :: rest.filter (fun p => decide (p.z ≤ playerZ + 10 * 6))

/-- C7: a touched, still-alive fading platform ticks `fadeTimer` down by
the frame delta, gets opacity `max(0, fadeTimer/1.5)`, dies exactly when
the new timer is `≤ 0`, is then skipped by the collision loop, but is not
removed by the dynamic update and survives the retirement sweep as long as
it is not more than 60 units behind the player. -/
theorem fading_platform_lifecycle (delta : ℝ) (p : Platform)
    (ps qs : List Platform) (q : Platform) (playerZ : ℝ)
    (hf : p.ptype = .fading) (ht : p.touched = true) (hd : p.dead = false) :
    (updateDynamicPlatform delta p).fadeTimer = some (p.fadeTimer.getD 1.5 - delta) ∧
    (updateDynamicPlatform delta p).opacity = max 0 ((p.fadeTimer.getD 1.5 - delta) / 1.5) ∧
    ((updateDynamicPlatform delta p).dead = true ↔ p.fadeTimer.getD 1.5 - delta ≤ 0) ∧
    (updateDynamicPlatform delta p).z = p.z ∧
    ((updateDynamicPlatform delta p).dead = true →
      updateDynamicPlatform delta p ∉ collidablePlatforms ps) ∧
    (p ∈ ps → updateDynamicPlatform delta p ∈ updateDynamicPlatforms delta ps) ∧
    (updateDynamicPlatforms delta ps).length = ps.length ∧
    ((updateDynamicPlatform delta p).z ≤ playerZ + 10 * 6 →
      updateDynamicPlatform delta p ∈ qs →
      updateDynamicPlatform delta p ∈ cleanupOldPlatforms playerZ (q :: qs)) := by
  have hnm : ¬ (p.ptype = .moving) := by
    rw [hf]
    intro hc
    exact PlatformType.noConfusion hc
  have hcond : p.ptype = .fading ∧ p.touched = true ∧ p.dead = false :=
    ⟨hf, ht, hd⟩
  have hstep : updateDynamicPlatform delta p =
      (if p.fadeTimer.getD 1.5 - delta ≤ 0 then
        { p with fadeTimer := some (p.fadeTimer.getD 1.5 - delta),
                 opacity := max 0 ((p.fadeTimer.getD 1.5 - delta) / 1.5),
                 dead := true, visible := false }
      else
        { p with fadeTimer := some (p.fadeTimer.getD 1.5 - delta),
                 opacity := max 0 ((p.fadeTimer.getD 1.5 - delta) / 1.5) }) := by
    simp only [updateDynamicPlatform, if_neg hnm, if_pos hcond]
  by_cases hft : p.fadeTimer.getD 1.5 - delta ≤ 0
  · rw [hstep, if_pos hft]
    refine ⟨rfl, rfl, by simp [hft], rfl, ?_, ?_, List.length_map ps _, ?_⟩
    · intro _ hmem
      have := (List.mem_filter.mp hmem).2
      simp at this
    · intro hmem
      have h2 : updateDynamicPlatform delta p ∈ updateDynamicPlatforms delta ps :=
        List.mem_map_of_mem _ hmem
      rw [hstep, if_pos hft] at h2
      exact h2
    · intro hz hmem
      refine List.mem_cons_of_mem q (List.mem_filter.mpr ⟨hmem, ?_⟩)
      simpa using hz
  · rw [hstep, if_neg hft]
    refine ⟨rfl, rfl, by simp [hft, hd], rfl, ?_, ?_, List.length_map ps _, ?_⟩
    · intro hdead _
      have hcontra : p.dead = true := hdead
      rw [hd] at hcontra
      exact Bool.noConfusion hcontra
    · intro hmem
      have h2 : updateDynamicPlatform delta p ∈ updateDynamicPlatforms delta ps :=
        List.mem_map_of_mem _ hmem
      rw [hstep, if_neg hft] at h2
      exact h2
    · intro hz hmem
      refine List.mem_cons_of_mem q (List.mem_filter.mpr ⟨hmem, ?_⟩)
      simpa using hz

/-- A touched fading platform used to instantiate the lifecycle theorem. -/
def fadeDemoPlat : Platform :=
  { x := 0, y := 0, z := 0, width := 2, height := 0.5, depth := 2,
    ptype := .fading, index := 85, baseX := none, movePhase := none,
    touched := true, fadeTimer := some 1.5, opacity := 1,
    visible := true, dead := false }

/-- C7 witness: with `fadeTimer = 1.5` and a frame delta of `2` the
platform's timer goes negative, it dies, leaves the collidable set, yet
survives the retirement sweep while close to the player. -/
theorem fading_platform_lifecycle_witness :
    (fadeDemoPlat.ptype = .fading ∧ fadeDemoPlat.touched = true ∧
      fadeDemoPlat.dead = false) ∧
    ((updateDynamicPlatform 2 fadeDemoPlat).fadeTimer =
        some (fadeDemoPlat.fadeTimer.getD 1.5 - 2) ∧
      (updateDynamicPlatform 2 fadeDemoPlat).opacity =
        max 0 ((fadeDemoPlat.fadeTimer.getD 1.5 - 2) / 1.5) ∧
      ((updateDynamicPlatform 2 fadeDemoPlat).dead = true ↔
        fadeDemoPlat.fadeTimer.getD 1.5 - 2 ≤ 0) ∧
      (updateDynamicPlatform 2 fadeDemoPlat).z = fadeDemoPlat.z ∧
      ((updateDynamicPlatform 2 fadeDemoPlat).dead = true →
        updateDynamicPlatform 2 fadeDemoPlat ∉ collidablePlatforms [fadeDemoPlat]) ∧
      (fadeDemoPlat ∈ [fadeDemoPlat] →
        updateDynamicPlatform 2 fadeDemoPlat ∈ updateDynamicPlatforms 2 [fadeDemoPlat]) ∧
      (updateDynamicPlatforms 2 [fadeDemoPlat]).length = [fadeDemoPlat].length ∧
      ((updateDynamicPlatform 2 fadeDemoPlat).z ≤ 0 + 10 * 6 →
        updateDynamicPlatform 2 fadeDemoPlat ∈ [updateDynamicPlatform 2 fadeDemoPlat] →
        updateDynamicPlatform 2 fadeDemoPlat ∈
          cleanupOldPlatforms 0 (startPlatform :: [updateDynamicPlatform 2 fadeDemoPlat]))) :=
  ⟨⟨rfl, rfl, rfl⟩,
    fading_platform_lifecycle 2 fadeDemoPlat [fadeDemoPlat]
      [updateDynamicPlatform 2 fadeDemoPlat] startPlatform 0 rfl rfl rfl⟩

/-! ## Nearest-platform lookup and the fall/respawn session flow
(game.ts:1120-1227) -/

/-- `findNearestPlatform` (game.ts:1120-1145).  The source starts with
`nearestPlatform = this.platforms[0]` and `minDistance = Infinity`, scans
every platform by horizontal distance and finally reads
`nearestPlatform.box` — the `Infinity` sentinel is modelled as `none`
(the first comparison always succeeds), and on an empty registry
`this.platforms[0]` is `undefined`, so the final member access throws a
`TypeError`; that fault is modelled as the `none` result.  A platform's
box centre is its mesh position and `box.max.y = y + height / 2`. -/
noncomputable def findNearestPlatform (playerX playerZ : ℝ)
    (platforms : List Platform) : Option (ℝ × ℝ × ℝ) :=
  match platforms with
  | [] => none
  | p0 :: _ =>
    let nearest := platforms.foldl
      (fun (best : Platform × Option ℝ) p =>
        let dx := p.x - playerX
        let dz := p.z - playerZ
        let dist := Real.sqrt (dx * dx + dz * dz)
        match best.2 with
        | none => (p, some dist)
        | some m => if dist < m then (p, some dist) else best)
      (p0, none)
    some (nearest.1.x, nearest.1.y + nearest.1.height / 2 + 1, nearest.1.z)

/-- C3 counterexample: on an empty registry the lookup faults (no value is
produced); in particular it does not return the fixed start position
`(0, 3, -2)` — the claimed fallback does not exist in the code. -/
theorem findNearestPlatform_empty_counterexample :
    findNearestPlatform 0 0 [] = none ∧
    findNearestPlatform 0 0 [] ≠ some (0, 3, -2) := by
  refine ⟨rfl, ?_⟩
  intro h
  rw [show findNearestPlatform (0:ℝ) (0:ℝ) [] = none from rfl] at h
  exact Option.noConfusion h

/-- C3 amended: the nearest-platform lookup has no empty-registry
fallback — with an empty registry it faults (modelled as `none`) instead
of returning the fixed start position; only on a nonempty registry does it
return a respawn point. -/
theorem findNearestPlatform_empty_faults (playerX playerZ : ℝ) :
    findNearestPlatform playerX playerZ [] = none ∧
    ∀ (p : Platform) (ps : List Platform),
      ∃ v, findNearestPlatform playerX playerZ (p :: ps) = some v := by
  refine ⟨rfl, ?_⟩
  intro p ps
  exact ⟨_, rfl⟩

/-- C3 witness: at player position `(5, 7)` the empty lookup yields no
respawn point while a registry holding the start platform yields one. -/
theorem findNearestPlatform_empty_faults_witness :
    findNearestPlatform 5 7 [] = none ∧
    ∃ v, findNearestPlatform 5 7 (startPlatform :: []) = some v :=
  ⟨(findNearestPlatform_empty_faults 5 7).1,
    (findNearestPlatform_empty_faults 5 7).2 startPlatform []⟩

/-- Session state touched by the fall flow. -/
structure Session where
  world : World
  platformsReached : ℕ
  touched : List ℕ
  highScore : ℕ
  playerX : ℝ
  playerY : ℝ
  playerZ : ℝ
  velX : ℝ
  velY : ℝ
  velZ : ℝ
  playerAngle : ℝ
  hasStartedMoving : Bool
  isFalling : Bool
  isPlaying : Bool

/-- `resetPlayer` (game.ts:1424-1432): place the player, zero velocity,
reset the facing angle and the has-started flag. -/
def resetPlayer (s : Session) (px py pz : ℝ) : Session :=
  { s with playerX := px, playerY := py, playerZ := pz,
           velX := 0, velY := 0, velZ := 0, playerAngle := 0,
           hasStartedMoving := false }

/-- `resetWorld` (game.ts:1184-1227): drop every platform, zero the
progress counters and the touched set, reset all generator cursor fields
to their initial values, then recreate the start platform and regenerate
the initial platforms.  (Gems and UI text are cosmetic and not
modelled.) -/
noncomputable def resetWorld (s : Session) (rs : ℕ → GenRand) : Session :=
  let w0 : World :=
    { s.world with platforms := [], generatedCount := 0, lastGenX := 0,
                   lastGenY := 0, lastGenZ := 0, pathAngle := 0,
                   turnRate := 0, turnChangeTimer := 0 }
  { s with world := generateInitialPlatforms (createStartPlatform w0) rs,
           platformsReached := 0, touched := [] }

/-- `handleFall` (game.ts:1147-1182).  External effects are parameters:
`watchAdChoice` is the player's answer to the fall prompt and `adWatched`
the rewarded-ad acknowledgement; `rs` supplies the generator draws of a
possible world regeneration.  The returned `Bool` records whether the
continue/restart prompt was shown (`showFallPrompt` also saves the high
score, game.ts:1251).  A `none` result models the `TypeError` of the
nearest-platform lookup on an empty registry. -/
noncomputable def handleFall (s : Session) (watchAdChoice adWatched : Bool)
    (rs : ℕ → GenRand) : Option (Session × Bool) :=
  match findNearestPlatform s.playerX s.playerZ s.world.platforms with
  | none => none
  | some v =>
    if 10 ≤ s.platformsReached then
      let s1 := { s with highScore :=
        if s.highScore < s.platformsReached then s.platformsReached
        else s.highScore }
      if watchAdChoice then
        if adWatched then
          some ({ resetPlayer s1 v.1 v.2.1 v.2.2 with
                    isFalling := false, isPlaying := true }, true)
        else
          some ({ resetPlayer (resetWorld s1 rs) 0 3 (-2) with
                    isFalling := false, isPlaying := true }, true)
      else
        some ({ resetPlayer (resetWorld s1 rs) 0 3 (-2) with
                  isFalling := false, isPlaying := true }, true)
    else
      some ({ resetPlayer (resetWorld s rs) 0 3 (-2) with
                isFalling := false, isPlaying := true }, false)

/-- The world `resetWorld` leaves behind is exactly the world rebuilt from
the initial generator cursor. -/
lemma resetWorld_world (s : Session) (rs : ℕ → GenRand) :
    (resetWorld s rs).world =
      generateInitialPlatforms (createStartPlatform initialWorld) rs := by
  have h : (World.mk [] 0 0 0 0 0 0 0) = initialWorld := rfl
  simp only [resetWorld]
  rw [h]

lemma resetWorld_platformsReached (s : Session) (rs : ℕ → GenRand) :
    (resetWorld s rs).platformsReached = 0 := rfl

lemma resetWorld_touched (s : Session) (rs : ℕ → GenRand) :
    (resetWorld s rs).touched = [] := rfl

/-- C5: the continue/restart prompt is shown iff `platformsReached ≥ 10`;
the player respawns at the nearest platform exactly when the prompt is
accepted and the rewarded ad acknowledges, leaving registry and progress
untouched; in every other case (below threshold, decline, or ad failure)
the flow rebuilds the world from scratch — platforms regenerated from the
initial generator cursor, progress and touched set zeroed — and respawns
the player at the fixed start position `(0, 3, -2)` with zero velocity. -/
theorem handleFall_choice_gating (s : Session) (wa aw : Bool) (rs : ℕ → GenRand)
    (v : ℝ × ℝ × ℝ)
    (hnp : findNearestPlatform s.playerX s.playerZ s.world.platforms = some v) :
    ∃ s' shown, handleFall s wa aw rs = some (s', shown) ∧
      (shown = true ↔ 10 ≤ s.platformsReached) ∧
      (if 10 ≤ s.platformsReached ∧ wa = true ∧ aw = true then
        s'.world = s.world ∧ s'.platformsReached = s.platformsReached ∧
        s'.touched = s.touched ∧
        (s'.playerX, s'.playerY, s'.playerZ) = v ∧
        (s'.velX, s'.velY, s'.velZ) = ((0:ℝ), (0:ℝ), (0:ℝ))
      else
        s'.world = generateInitialPlatforms (createStartPlatform initialWorld) rs ∧
        s'.platformsReached = 0 ∧ s'.touched = [] ∧
        (s'.playerX, s'.playerY, s'.playerZ) = ((0:ℝ), (3:ℝ), (-2:ℝ)) ∧
        (s'.velX, s'.velY, s'.velZ) = ((0:ℝ), (0:ℝ), (0:ℝ))) := by
  simp only [handleFall, hnp]
  by_cases h10 : 10 ≤ s.platformsReached
  · rw [if_pos h10]
    cases wa with
    | true =>
      cases aw with
      | true =>
        rw [if_pos rfl, if_pos rfl]
        refine ⟨_, _, rfl, by simp [h10], ?_⟩
        rw [if_pos ⟨h10, rfl, rfl⟩]
        exact ⟨rfl, rfl, rfl, rfl, rfl⟩
      | false =>
        rw [if_pos rfl, if_neg (by simp)]
        refine ⟨_, _, rfl, by simp [h10], ?_⟩
        rw [if_neg (by simp)]
        refine ⟨?_, rfl, rfl, rfl, rfl⟩
        exact resetWorld_world
          { s with highScore := if s.highScore < s.platformsReached
              then s.platformsReached else s.highScore } rs
    | false =>
      rw [if_neg (by simp)]
      refine ⟨_, _, rfl, by simp [h10], ?_⟩
      rw [if_neg (by simp)]
      refine ⟨?_, rfl, rfl, rfl, rfl⟩
      exact resetWorld_world
        { s with highScore := if s.highScore < s.platformsReached
            then s.platformsReached else s.highScore } rs
  · rw [if_neg h10]
    refine ⟨_, _, rfl, by simp [h10], ?_⟩
    rw [if_neg (by simp [h10])]
    refine ⟨?_, rfl, rfl, rfl, rfl⟩
    exact resetWorld_world s rs

/-- A session that has reached 12 platforms, used to instantiate the fall
flow. -/
def fallDemoSession : Session :=
  { world := createStartPlatform initialWorld, platformsReached := 12,
    touched := [1, 2, 3], highScore := 0,
    playerX := 0, playerY := -25, playerZ := 0,
    velX := 0, velY := -10, velZ := 0, playerAngle := 0,
    hasStartedMoving := true, isFalling := true, isPlaying := false }

/-- C5 witness: at `platformsReached = 12` with the prompt accepted and
the ad acknowledged, the prompt is shown and the player respawns on the
nearest platform with the world kept. -/
theorem handleFall_choice_gating_witness :
    ∃ s' shown,
      handleFall fallDemoSession true true (fun _ => ⟨0, 0, 0, 0, 0, 0, 0, 0⟩) =
        some (s', shown) ∧
      (shown = true ↔ 10 ≤ fallDemoSession.platformsReached) ∧
      (if 10 ≤ fallDemoSession.platformsReached ∧ true = true ∧ true = true then
        s'.world = fallDemoSession.world ∧
        s'.platformsReached = fallDemoSession.platformsReached ∧
        s'.touched = fallDemoSession.touched ∧
        (s'.playerX, s'.playerY, s'.playerZ) =
          (startPlatform.x, startPlatform.y + startPlatform.height / 2 + 1,
             startPlatform.z) ∧
        (s'.velX, s'.velY, s'.velZ) = ((0:ℝ), (0:ℝ), (0:ℝ))
      else
        s'.world = generateInitialPlatforms (createStartPlatform initialWorld)
          (fun _ => ⟨0, 0, 0, 0, 0, 0, 0, 0⟩) ∧
        s'.platformsReached = 0 ∧ s'.touched = [] ∧
        (s'.playerX, s'.playerY, s'.playerZ) = ((0:ℝ), (3:ℝ), (-2:ℝ)) ∧
        (s'.velX, s'.velY, s'.velZ) = ((0:ℝ), (0:ℝ), (0:ℝ))) :=
  handleFall_choice_gating fallDemoSession true true
    (fun _ => ⟨0, 0, 0, 0, 0, 0, 0, 0⟩)
    (startPlatform.x, startPlatform.y + startPlatform.height / 2 + 1,
      startPlatform.z) rfl

end BunnyHop
